import Mathlib

/-!
# Verification of the StampFly ToF measurement post-processing pipeline

Shallow embedding of the outlier-rejecting filter
(`src/vl53lx_outlier_filter.c`) and of the histogram-to-distance
extractor (`src/vl53lx_platform.c`, `vl53l3cx_get_ranging_data`),
with theorems settling the specification claims about them.

Machine integers are modelled as `Nat` with explicit `% 2^w` at the
points where the C code truncates; `float` quantities (the Kalman state
and the histogram interpolation) are modelled as exact rationals `ℚ`;
the fallible C functions (returning `false` / writing through an output
pointer) are modelled with `Option`.
-/

namespace StampflyTof

/-- Filter types of `vl53lx_filter_type_t`. -/
inductive FilterType where
  | median
  | average
  | weightedAvg
  | kalman
deriving DecidableEq, Repr

/-- `vl53lx_filter_config_t`: configuration of the outlier filter.
`window_size` is a `uint8_t`, `max_change_rate_mm` a `uint16_t`,
`valid_status_mask` a `uint8_t`; the two noise parameters are `float`,
modelled as `ℚ`. -/
structure FilterConfig where
  filter_type : FilterType
  window_size : ℕ
  enable_status_check : Bool
  enable_rate_limit : Bool
  max_change_rate_mm : ℕ
  valid_status_mask : ℕ
  kalman_process_noise : ℚ
  kalman_measurement_noise : ℚ
deriving DecidableEq, Repr

/-- `vl53lx_filter_t`: the mutable filter state.  The two heap buffers
are modelled as lists of fixed length `window_size`; `head`, `count`,
`last_output`, `rejected_count` and `samples_since_reset` are the
corresponding unsigned fields. -/
structure FilterState where
  config : FilterConfig
  buffer : List ℕ
  status_buffer : List ℕ
  head : ℕ
  count : ℕ
  last_output : ℕ
  rejected_count : ℕ
  samples_since_reset : ℕ
  kalman_x : ℚ
  kalman_p : ℚ
  kalman_initialized : Bool
  initialized : Bool
deriving DecidableEq, Repr

/-- `VL53LX_FilterGetDefaultConfig` (vl53lx_outlier_filter.c:88-101).
The source sets `kalman_process_noise = 0.01f` and
`kalman_measurement_noise = 4.0f`. -/
def FilterGetDefaultConfig : FilterConfig :=
  { filter_type := .median
    window_size := 5
    enable_status_check := true
    enable_rate_limit := true
    max_change_rate_mm := 500
    valid_status_mask := 0x01
    kalman_process_noise := 1/100
    kalman_measurement_noise := 4 }

/-- `VL53LX_FilterInitWithConfig` (vl53lx_outlier_filter.c:109-149).
Returns `none` where the C function returns `false` (window size out of
the 3..15 range).  The heap allocation is assumed to succeed; the two
freshly allocated buffers are modelled as zero lists (their contents
are never read before being written, since `count = 0`). -/
def FilterInitWithConfig (config : FilterConfig) : Option FilterState :=
  if config.window_size < 3 ∨ 15 < config.window_size then none
  else some
    { config := config
      buffer := List.replicate config.window_size 0
      status_buffer := List.replicate config.window_size 0
      head := 0
      count := 0
      last_output := 0
      rejected_count := 0
      samples_since_reset := 0
      kalman_x := 0
      kalman_p := 1000
      kalman_initialized := false
      initialized := true }

/-- `VL53LX_FilterInit` (vl53lx_outlier_filter.c:103-107). -/
def FilterInit : Option FilterState :=
  FilterInitWithConfig FilterGetDefaultConfig

/-- `VL53LX_FilterReset` (vl53lx_outlier_filter.c:170-186).  A no-op on
an uninitialized filter. -/
def FilterReset (f : FilterState) : FilterState :=
  if f.initialized then
    { f with
      head := 0
      count := 0
      last_output := 0
      rejected_count := 0
      samples_since_reset := 0
      kalman_x := 0
      kalman_p := 1000
      kalman_initialized := false }
  else f

/-- `VL53LX_FilterIsValidRangeStatus` (vl53lx_outlier_filter.c:188-194). -/
def FilterIsValidRangeStatus (range_status : ℕ) : Bool :=
  range_status == 0

/-- The status gate of `VL53LX_FilterUpdate` (line 207): the sample is
status-invalid iff the check is enabled and
`(1 << range_status) & valid_status_mask` is zero. -/
def statusGateRejects (c : FilterConfig) (range_status : ℕ) : Bool :=
  c.enable_status_check && (((1 <<< range_status) &&& c.valid_status_mask) == 0)

/-- The shared rejection bookkeeping of `VL53LX_FilterUpdate`
(lines 210-215 and 236-241): `rejected_count++` on the `uint8_t`
counter, then auto-reset once it reaches 5. -/
def bumpRejected (f : FilterState) : FilterState :=
  let f' := { f with rejected_count := (f.rejected_count + 1) % 256 }
  if 5 ≤ f'.rejected_count then FilterReset f' else f'

/-- `has_previous_output` (vl53lx_outlier_filter.c:220-222). -/
def hasPreviousOutput (f : FilterState) : Bool :=
  if f.config.filter_type = .kalman then f.kalman_initialized
  else decide (0 < f.count)

/-- `effective_rate_limit` (vl53lx_outlier_filter.c:228-231).  The
tripled value is stored back into a `uint16_t`, hence the `% 65536`. -/
def effectiveRateLimit (f : FilterState) : ℕ :=
  if f.samples_since_reset < 3 then f.config.max_change_rate_mm * 3 % 65536
  else f.config.max_change_rate_mm

/-- The rate gate of `VL53LX_FilterUpdate` (lines 224-233): the sample
is rate-invalid iff the limiter is enabled, the filter has a previous
output, and `abs((int32_t)distance_mm - (int32_t)last_output)` exceeds
the effective limit. -/
def rateGateRejects (f : FilterState) (distance_mm : ℕ) : Bool :=
  f.config.enable_rate_limit && hasPreviousOutput f &&
    decide (effectiveRateLimit f < ((distance_mm : ℤ) - (f.last_output : ℤ)).natAbs)

/-- The validation-gate phase of `VL53LX_FilterUpdate` (lines 202-248):
status gate, then rate gate (evaluated on the state the status gate
left behind), then clearing of the rejection counter on a fully
accepted sample.  Returns the updated state together with the
`status_valid` and `rate_valid` flags. -/
def gatePhase (f : FilterState) (distance_mm range_status : ℕ) :
    FilterState × Bool × Bool :=
  let status_valid := !statusGateRejects f.config range_status
  let f1 := if status_valid then f else bumpRejected f
  let rate_valid := !rateGateRejects f1 distance_mm
  let f2 := if rate_valid then f1 else bumpRejected f1
  let f3 := if status_valid && rate_valid then { f2 with rejected_count := 0 } else f2
  (f3, status_valid, rate_valid)

/-- The C cast `(uint16_t)x` applied to a non-negative `float`
(truncation toward zero); negative inputs (undefined behaviour in C)
are mapped to 0. -/
def castU16 (q : ℚ) : ℕ := ⌊q⌋.toNat

/-- The common output tail of `VL53LX_FilterUpdate` (lines 329-337):
write the output, record `last_output`, and increment
`samples_since_reset` (capped at 255) for fully valid samples. -/
def finishOutput (f : FilterState) (filtered : ℕ) (accepted : Bool) :
    FilterState × Option ℕ :=
  ({ f with
      last_output := filtered
      samples_since_reset :=
        if accepted && decide (f.samples_since_reset < 255) then
          f.samples_since_reset + 1
        else f.samples_since_reset },
   some filtered)

/-- The Kalman branch of `VL53LX_FilterUpdate` (lines 253-288). -/
def kalmanApply (f3 : FilterState) (distance_mm : ℕ) (accepted : Bool) :
    FilterState × Option ℕ :=
  if !f3.kalman_initialized then
    if accepted then
      let f4 := { f3 with
        kalman_x := (distance_mm : ℚ)
        kalman_p := f3.config.kalman_measurement_noise
        kalman_initialized := true }
      finishOutput f4 distance_mm accepted
    else (f3, none)
  else
    let Q := f3.config.kalman_process_noise
    let R := f3.config.kalman_measurement_noise
    let x_pred := f3.kalman_x
    let p_pred := f3.kalman_p + Q
    let f4 :=
      if accepted then
        let K := p_pred / (p_pred + R)
        { f3 with
          kalman_x := x_pred + K * ((distance_mm : ℚ) - x_pred)
          kalman_p := (1 - K) * p_pred }
      else
        { f3 with kalman_x := x_pred, kalman_p := p_pred }
    finishOutput f4 (castU16 (f4.kalman_x + 1/2)) accepted

/-- `calculate_median` (vl53lx_outlier_filter.c:26-45): sort the first
`count` entries ascending, return the middle entry (mean of the two
middle entries for even `count`). -/
def calculate_median (buffer : List ℕ) (count : ℕ) : ℕ :=
  if count = 0 then 0
  else
    let temp := (buffer.take count).mergeSort (fun a b => a ≤ b)
    if count % 2 = 0 then
      (temp.getD (count / 2 - 1) 0 + temp.getD (count / 2) 0) / 2
    else temp.getD (count / 2) 0

/-- `calculate_average` (vl53lx_outlier_filter.c:50-62): integer mean of
the first `count` entries. -/
def calculate_average (buffer : List ℕ) (count : ℕ) : ℕ :=
  if count = 0 then 0 else (buffer.take count).sum / count

/-- `calculate_weighted_average` (vl53lx_outlier_filter.c:67-86). -/
def calculate_weighted_average (buffer : List ℕ) (count head : ℕ) : ℕ :=
  if count = 0 then 0
  else
    let weighted_sum :=
      ((List.range count).map
        (fun i => buffer.getD ((head + count - 1 - i) % count) 0 * (count - i))).sum
    let weight_sum := ((List.range count).map (fun i => count - i)).sum
    weighted_sum / weight_sum

/-- The buffer-filter branch of `VL53LX_FilterUpdate` (lines 289-327). -/
def bufferApply (f3 : FilterState) (distance_mm range_status : ℕ)
    (accepted : Bool) : FilterState × Option ℕ :=
  if !accepted then (f3, none)
  else
    let f4 := { f3 with
      buffer := f3.buffer.set f3.head distance_mm
      status_buffer := f3.status_buffer.set f3.head range_status
      head := (f3.head + 1) % f3.config.window_size
      count := if f3.count < f3.config.window_size then f3.count + 1 else f3.count }
    let filtered :=
      if f4.count < 3 then distance_mm
      else
        match f4.config.filter_type with
        | .median => calculate_median f4.buffer f4.count
        | .average => calculate_average f4.buffer f4.count
        | .weightedAvg => calculate_weighted_average f4.buffer f4.count f4.head
        | .kalman => distance_mm
    finishOutput f4 filtered accepted

/-- `VL53LX_FilterUpdate` (vl53lx_outlier_filter.c:196-338).  The C
`bool` return plus `*output_mm` out-parameter are modelled as the
`Option ℕ` component: `none` for a `false` return (no output written),
`some output` for `true`. -/
def FilterUpdate (f : FilterState) (distance_mm range_status : ℕ) :
    FilterState × Option ℕ :=
  if !f.initialized then (f, none)
  else
    let gp := gatePhase f distance_mm range_status
    let accepted := gp.2.1 && gp.2.2
    if gp.1.config.filter_type = .kalman then kalmanApply gp.1 distance_mm accepted
    else bufferApply gp.1 distance_mm range_status accepted

/-! ## Histogram distance extractor (`vl53l3cx_get_ranging_data`) -/

/-- The distance-relevant part of `vl53l3cx_result_t`. -/
structure RangingResult where
  distance_mm : ℕ
  ambient_estimate : ℕ
  peak_bin : ℕ
deriving DecidableEq, Repr

/-- Ambient estimate (vl53lx_platform.c:776-781): integer mean of the
first 6 bins. -/
def ambient_estimate (bins : List ℕ) : ℕ := (bins.take 6).sum / 6

/-- Ambient-corrected bin (vl53lx_platform.c:784-791). -/
def corrected_bin (bins : List ℕ) (amb i : ℕ) : ℕ :=
  if amb < bins.getD i 0 then bins.getD i 0 - amb else 0

/-- Peak detection (vl53lx_platform.c:794-801): scan bins 6..17
left-to-right, starting from `max_count = 0`, `peak_bin = 0`, keeping a
strictly larger count (so ties resolve to the first maximum).  Returns
`(max_count, peak_bin)`. -/
def peakSearch (cb : ℕ → ℕ) : ℕ × ℕ :=
  (List.range' 6 12).foldl
    (fun acc i => if acc.1 < cb i then (cb i, i) else acc) (0, 0)

/-- `vl53l3cx_get_ranging_data` (vl53lx_platform.c:748-828), restricted
to its pure histogram-to-distance computation: the I2C transfer and the
byte-assembly of the 24 bins are the excluded peripheral layer, so the
input is the assembled `bin_data` array. -/
def get_ranging_data (bins : List ℕ) : RangingResult :=
  let amb := ambient_estimate bins
  let cb := corrected_bin bins amb
  let pk := peakSearch cb
  let distance : ℚ :=
    if 0 < pk.1 ∧ 0 < pk.2 ∧ pk.2 < 23 then
      let a : ℤ := cb (pk.2 - 1)
      let b : ℤ := cb pk.2
      let c : ℤ := cb (pk.2 + 1)
      let denominator := a - 2 * b + c
      let sub_bin_offset : ℚ :=
        if denominator ≠ 0 then (1 / 2) * ((a - c : ℤ) : ℚ) / ((denominator : ℤ) : ℚ)
        else 0
      let accurate_bin := (pk.2 : ℚ) + sub_bin_offset
      let bin_width_mm : ℚ := if pk.2 < 12 then 15 else 25 / 2
      accurate_bin * bin_width_mm
    else 0
  { distance_mm := castU16 distance
    ambient_estimate := amb
    peak_bin := pk.2 }

/-! ## Structural lemmas about the gate phase -/

/-- The rate gate never reads the rejection counter, so bumping the
counter does not change its verdict. -/
lemma rateGateRejects_set_rc (f : FilterState) (n d : ℕ) :
    rateGateRejects { f with rejected_count := n } d = rateGateRejects f d := rfl

/-- Bumping the rejection counter below the threshold only increments
the counter. -/
lemma bumpRejected_noReset (f : FilterState) (h : f.rejected_count + 1 < 5) :
    bumpRejected f = { f with rejected_count := f.rejected_count + 1 } := by
  unfold bumpRejected
  rw [Nat.mod_eq_of_lt (show f.rejected_count + 1 < 256 by omega)]
  exact if_neg (show ¬ 5 ≤ f.rejected_count + 1 by omega)

/-- Bumping the rejection counter of an initialized filter from 4 (or
more, up to the wrap bound) triggers the auto-reset. -/
lemma bumpRejected_reset (f : FilterState) (hinit : f.initialized = true)
    (h4 : 4 ≤ f.rejected_count) (h254 : f.rejected_count ≤ 254) :
    bumpRejected f =
      { f with head := 0, count := 0, last_output := 0, rejected_count := 0,
               samples_since_reset := 0, kalman_x := 0, kalman_p := 1000,
               kalman_initialized := false } := by
  unfold bumpRejected FilterReset
  rw [Nat.mod_eq_of_lt (show f.rejected_count + 1 < 256 by omega),
    if_pos (show 5 ≤ f.rejected_count + 1 by omega),
    if_pos (show ({ f with rejected_count := f.rejected_count + 1 } :
      FilterState).initialized = true from hinit)]

/-- A freshly reset state has no previous output, so its rate gate
always passes. -/
lemma rateGateRejects_resetState (f : FilterState) (d : ℕ) :
    rateGateRejects
      { f with head := 0, count := 0, last_output := 0, rejected_count := 0,
               samples_since_reset := 0, kalman_x := 0, kalman_p := 1000,
               kalman_initialized := false } d = false := by
  unfold rateGateRejects hasPreviousOutput
  split <;> simp

/-- Gate phase on a fully accepted sample: the rejection counter is
cleared and nothing else changes. -/
lemma gatePhase_accepted (f : FilterState) (d rs : ℕ)
    (hs : statusGateRejects f.config rs = false)
    (hr : rateGateRejects f d = false) :
    gatePhase f d rs = ({ f with rejected_count := 0 }, true, true) := by
  unfold gatePhase
  simp [hs, hr]

/-- Gate phase on a rejected sample that does not drive the counter to
the reset threshold: the counter gains one per failed gate. -/
lemma gatePhase_rejected_noReset (f : FilterState) (d rs : ℕ)
    (hrej : statusGateRejects f.config rs = true ∨ rateGateRejects f d = true)
    (h5 : f.rejected_count + (statusGateRejects f.config rs).toNat
            + (rateGateRejects f d).toNat < 5) :
    gatePhase f d rs =
      ({ f with rejected_count := f.rejected_count
                  + (statusGateRejects f.config rs).toNat
                  + (rateGateRejects f d).toNat },
       !statusGateRejects f.config rs, !rateGateRejects f d) := by
  cases hSR : statusGateRejects f.config rs <;> cases hRR : rateGateRejects f d <;>
    rw [hSR, hRR] at h5 <;>
    simp only [Bool.toNat_false, Bool.toNat_true, Nat.add_zero] at h5
  · simp [hSR] at hrej
    simp [hrej] at hRR
  · -- status passes, rate rejects
    have hb : bumpRejected f = { f with rejected_count := f.rejected_count + 1 } :=
      bumpRejected_noReset f (by omega)
    simp [gatePhase, hSR, hRR, hb]
  · -- status rejects, rate passes
    have hb : bumpRejected f = { f with rejected_count := f.rejected_count + 1 } :=
      bumpRejected_noReset f (by omega)
    have hr1 : rateGateRejects { f with rejected_count := f.rejected_count + 1 } d
        = false := by rw [rateGateRejects_set_rc]; exact hRR
    simp [gatePhase, hSR, hRR, hb, hr1]
  · -- both gates reject
    have hb : bumpRejected f = { f with rejected_count := f.rejected_count + 1 } :=
      bumpRejected_noReset f (by omega)
    have hr1 : rateGateRejects { f with rejected_count := f.rejected_count + 1 } d
        = true := by rw [rateGateRejects_set_rc]; exact hRR
    have hb2 : bumpRejected { f with rejected_count := f.rejected_count + 1 }
        = { f with rejected_count := f.rejected_count + 1 + 1 } := by
      rw [bumpRejected_noReset { f with rejected_count := f.rejected_count + 1 }
        (show f.rejected_count + 1 + 1 < 5 by omega)]
    simp [gatePhase, hSR, hRR, hb, hr1, hb2]

/-- Gate phase when the rejection counter reaches the threshold during
the call: the state comes out reset and the sample is not accepted. -/
lemma gatePhase_reset (f : FilterState) (d rs : ℕ)
    (hinit : f.initialized = true)
    (hrc : f.rejected_count ≤ 4)
    (h5 : 5 ≤ f.rejected_count + (statusGateRejects f.config rs).toNat
            + (rateGateRejects f d).toNat) :
    (gatePhase f d rs).1 =
      { f with head := 0, count := 0, last_output := 0, rejected_count := 0,
               samples_since_reset := 0, kalman_x := 0, kalman_p := 1000,
               kalman_initialized := false } ∧
    ((gatePhase f d rs).2.1 && (gatePhase f d rs).2.2) = false := by
  cases hSR : statusGateRejects f.config rs <;> cases hRR : rateGateRejects f d <;>
    rw [hSR, hRR] at h5 <;>
    simp only [Bool.toNat_false, Bool.toNat_true, Nat.add_zero] at h5
  · omega
  · -- status passes, rate rejects, counter at 4
    have hb : bumpRejected f =
        { f with head := 0, count := 0, last_output := 0, rejected_count := 0,
                 samples_since_reset := 0, kalman_x := 0, kalman_p := 1000,
                 kalman_initialized := false } :=
      bumpRejected_reset f hinit (by omega) (by omega)
    simp [gatePhase, hSR, hRR, hb]
  · -- status rejects with counter at 4: reset happens at the status gate
    have hb : bumpRejected f =
        { f with head := 0, count := 0, last_output := 0, rejected_count := 0,
                 samples_since_reset := 0, kalman_x := 0, kalman_p := 1000,
                 kalman_initialized := false } :=
      bumpRejected_reset f hinit (by omega) (by omega)
    have hr1 := rateGateRejects_resetState f d
    simp [gatePhase, hSR, hb, hr1]
  · -- both gates reject
    by_cases h4 : f.rejected_count = 4
    · have hb : bumpRejected f =
          { f with head := 0, count := 0, last_output := 0, rejected_count := 0,
                   samples_since_reset := 0, kalman_x := 0, kalman_p := 1000,
                   kalman_initialized := false } :=
        bumpRejected_reset f hinit (by omega) (by omega)
      have hr1 := rateGateRejects_resetState f d
      simp [gatePhase, hSR, hb, hr1]
    · -- counter at 3: first bump increments, second bump resets
      have hb : bumpRejected f = { f with rejected_count := f.rejected_count + 1 } :=
        bumpRejected_noReset f (by omega)
      have hr1 : rateGateRejects { f with rejected_count := f.rejected_count + 1 } d
          = true := by rw [rateGateRejects_set_rc]; exact hRR
      have hb2 : bumpRejected { f with rejected_count := f.rejected_count + 1 }
          = { f with head := 0, count := 0, last_output := 0, rejected_count := 0,
                     samples_since_reset := 0, kalman_x := 0, kalman_p := 1000,
                     kalman_initialized := false } := by
        rw [bumpRejected_reset { f with rejected_count := f.rejected_count + 1 }
          (show f.initialized = true from hinit)
          (show 4 ≤ f.rejected_count + 1 by omega)
          (show f.rejected_count + 1 ≤ 254 by omega)]
      simp [gatePhase, hSR, hRR, hb, hr1, hb2]

/-- Unfolding of `VL53LX_FilterUpdate` for an initialized filter. -/
lemma filterUpdate_initialized (f : FilterState) (d rs : ℕ)
    (hinit : f.initialized = true) :
    FilterUpdate f d rs =
      (if (gatePhase f d rs).1.config.filter_type = .kalman then
        kalmanApply (gatePhase f d rs).1 d
          ((gatePhase f d rs).2.1 && (gatePhase f d rs).2.2)
      else
        bufferApply (gatePhase f d rs).1 d rs
          ((gatePhase f d rs).2.1 && (gatePhase f d rs).2.2)) := by
  unfold FilterUpdate
  rw [hinit]
  simp

/-- `bumpRejected` never changes the configuration. -/
lemma config_bumpRejected (f : FilterState) :
    (bumpRejected f).config = f.config := by
  simp only [bumpRejected, FilterReset]
  split_ifs <;> rfl

/-- `bumpRejected` never changes the `initialized` flag. -/
lemma initialized_bumpRejected (f : FilterState) :
    (bumpRejected f).initialized = f.initialized := by
  simp only [bumpRejected, FilterReset]
  split_ifs <;> rfl

/-- The gate phase never changes the configuration. -/
lemma gatePhase_config (f : FilterState) (d rs : ℕ) :
    (gatePhase f d rs).1.config = f.config := by
  simp only [gatePhase]
  split_ifs <;> simp [config_bumpRejected]

/-! ## The claims -/

/-- C7: the spec claims `VL53LX_FilterGetDefaultConfig` returns
`process_noise Q = 1.0` and `measurement_noise R = 4.0`, and the
repository's own header (`include/vl53lx_outlier_filter.h`, doc
comments at the config struct and at the function prototype) documents
exactly those defaults; the implementation, however, returns
`kalman_process_noise = 0.01f` (and `R = 4.0f`), contradicting its own
documentation. -/
theorem defaultConfig_noise_values :
    FilterGetDefaultConfig.kalman_process_noise = 1 / 100 ∧
    FilterGetDefaultConfig.kalman_measurement_noise = 4 ∧
    FilterGetDefaultConfig.kalman_process_noise ≠ 1 := by
  refine ⟨rfl, rfl, ?_⟩
  norm_num [FilterGetDefaultConfig]

/-- C10: a window size outside 3..15 makes `VL53LX_FilterInitWithConfig`
fail (no initialized filter is produced, whatever the filter type), and
every successfully constructed filter has `3 ≤ window_size ≤ 15` and is
marked initialized. -/
theorem initWithConfig_window_validation (c : FilterConfig) :
    ((c.window_size < 3 ∨ 15 < c.window_size) → FilterInitWithConfig c = none) ∧
    (∀ f : FilterState, FilterInitWithConfig c = some f →
      3 ≤ c.window_size ∧ c.window_size ≤ 15 ∧ f.initialized = true) := by
  constructor
  · intro h
    unfold FilterInitWithConfig
    rw [if_pos h]
  · intro f hf
    unfold FilterInitWithConfig at hf
    by_cases h : c.window_size < 3 ∨ 15 < c.window_size
    · rw [if_pos h] at hf
      cases hf
    · rw [if_neg h] at hf
      push_neg at h
      injection hf with hf'
      refine ⟨h.1, h.2, ?_⟩
      rw [← hf']

/-- Witness for C10: a Kalman-type configuration with window size 2 is
refused. -/
theorem initWithConfig_window_validation_witness :
    FilterInitWithConfig
      { FilterGetDefaultConfig with filter_type := .kalman, window_size := 2 }
      = none :=
  (initWithConfig_window_validation _).1 (by decide)

/-- C3: bootstrap of an uninitialized Kalman filter on a sample that
passes both enabled gates: the call succeeds, the output equals the raw
`distance_mm`, `kalman_x` is set to the raw distance, the error
covariance is set to the configured measurement noise R, the filter
becomes Kalman-initialized, and `last_output` records the output. -/
theorem kalman_bootstrap_accepted (f : FilterState) (d rs : ℕ)
    (hinit : f.initialized = true)
    (htype : f.config.filter_type = .kalman)
    (hk : f.kalman_initialized = false)
    (hstatus : statusGateRejects f.config rs = false) :
    (FilterUpdate f d rs).2 = some d ∧
    (FilterUpdate f d rs).1.kalman_x = (d : ℚ) ∧
    (FilterUpdate f d rs).1.kalman_p = f.config.kalman_measurement_noise ∧
    (FilterUpdate f d rs).1.kalman_initialized = true ∧
    (FilterUpdate f d rs).1.last_output = d := by
  have hr : rateGateRejects f d = false := by
    unfold rateGateRejects hasPreviousOutput
    simp [htype, hk]
  rw [filterUpdate_initialized f d rs hinit, gatePhase_accepted f d rs hstatus hr]
  simp [kalmanApply, finishOutput, htype, hk]

/-- Witness for C3: a fresh default-configured filter switched to
Kalman mode bootstraps on (distance 1234, status 0). -/
theorem kalman_bootstrap_accepted_witness :
    (FilterUpdate
      { config := { FilterGetDefaultConfig with filter_type := .kalman },
        buffer := List.replicate 5 0, status_buffer := List.replicate 5 0,
        head := 0, count := 0, last_output := 0, rejected_count := 0,
        samples_since_reset := 0, kalman_x := 0, kalman_p := 1000,
        kalman_initialized := false, initialized := true } 1234 0).2 = some 1234 :=
  (kalman_bootstrap_accepted _ 1234 0 (by decide) (by decide) (by decide)
    (by decide)).1

/-- C1: an initialized Kalman filter whose consecutive-rejection
counter reaches the threshold 5 during a `VL53LX_FilterUpdate` call is
reset mid-call (uninitialized Kalman state, `last_output = 0`,
`rejected_count = 0`, `samples_since_reset = 0`, error covariance back
to 1000), and that same call returns failure with no output. -/
theorem kalman_autoReset_call_fails (f : FilterState) (d rs : ℕ)
    (hinit : f.initialized = true)
    (htype : f.config.filter_type = .kalman)
    (hk : f.kalman_initialized = true)
    (hrc : f.rejected_count ≤ 4)
    (h5 : 5 ≤ f.rejected_count + (statusGateRejects f.config rs).toNat
            + (rateGateRejects f d).toNat) :
    FilterUpdate f d rs =
      ({ f with head := 0, count := 0, last_output := 0, rejected_count := 0,
                samples_since_reset := 0, kalman_x := 0, kalman_p := 1000,
                kalman_initialized := false }, none) := by
  obtain ⟨hstate, hacc⟩ := gatePhase_reset f d rs hinit hrc h5
  rw [filterUpdate_initialized f d rs hinit, hstate, hacc]
  simp [kalmanApply, htype]

/-- Witness for C1: an initialized Kalman filter with 4 prior
rejections fed a fifth consecutive bad-status sample resets and fails. -/
theorem kalman_autoReset_call_fails_witness :
    FilterUpdate
      { config := { FilterGetDefaultConfig with filter_type := .kalman },
        buffer := List.replicate 5 0, status_buffer := List.replicate 5 0,
        head := 0, count := 0, last_output := 800, rejected_count := 4,
        samples_since_reset := 7, kalman_x := 800, kalman_p := 5,
        kalman_initialized := true, initialized := true } 805 4 =
      ({ config := { FilterGetDefaultConfig with filter_type := .kalman },
         buffer := List.replicate 5 0, status_buffer := List.replicate 5 0,
         head := 0, count := 0, last_output := 0, rejected_count := 0,
         samples_since_reset := 0, kalman_x := 0, kalman_p := 1000,
         kalman_initialized := false, initialized := true }, none) :=
  kalman_autoReset_call_fails _ 805 4 (by decide) (by decide) (by decide)
    (by decide) (by decide)

/-- C4: a rejected sample fed to an uninitialized Kalman filter (in
its canonical uninitialized state, the only uninitialized state the
filter code can reach: zero estimate, covariance at the 1000 sentinel,
zero `last_output` and `samples_since_reset`) yields a failure with no
output, the state stays uninitialized with those fields unchanged, and
only the rejection-counter bookkeeping is applied; moreover — the
uniqueness half — an initialized-argument Kalman call produces no
output only when the sample was rejected by a gate and the filter is
Kalman-uninitialized when the Kalman step runs. -/
theorem kalman_bootstrap_rejected (f : FilterState) (d rs : ℕ)
    (hinit : f.initialized = true)
    (htype : f.config.filter_type = .kalman)
    (hk : f.kalman_initialized = false)
    (hstatus : statusGateRejects f.config rs = true)
    (hrc : f.rejected_count ≤ 4)
    (hx : f.kalman_x = 0) (hp : f.kalman_p = 1000)
    (hlo : f.last_output = 0) (hssr : f.samples_since_reset = 0) :
    ((FilterUpdate f d rs).2 = none ∧
     (FilterUpdate f d rs).1.kalman_initialized = false ∧
     (FilterUpdate f d rs).1.kalman_x = f.kalman_x ∧
     (FilterUpdate f d rs).1.kalman_p = f.kalman_p ∧
     (FilterUpdate f d rs).1.last_output = f.last_output ∧
     (FilterUpdate f d rs).1.samples_since_reset = f.samples_since_reset ∧
     (FilterUpdate f d rs).1.rejected_count =
       (if 5 ≤ f.rejected_count + 1 then 0 else f.rejected_count + 1)) ∧
    (∀ (g : FilterState) (e t : ℕ), g.initialized = true →
      g.config.filter_type = .kalman → (FilterUpdate g e t).2 = none →
      ((gatePhase g e t).2.1 = false ∨ (gatePhase g e t).2.2 = false) ∧
      (gatePhase g e t).1.kalman_initialized = false) := by
  constructor
  · have hr : rateGateRejects f d = false := by
      unfold rateGateRejects hasPreviousOutput
      simp [htype, hk]
    by_cases h4 : f.rejected_count ≤ 3
    · have hgp := gatePhase_rejected_noReset f d rs (Or.inl hstatus)
        (by rw [hstatus, hr]; simp; omega)
      rw [hstatus, hr] at hgp
      simp only [Bool.toNat_true, Bool.toNat_false, Nat.add_zero] at hgp
      rw [filterUpdate_initialized f d rs hinit, hgp,
        if_neg (show ¬ 5 ≤ f.rejected_count + 1 by omega)]
      simp [kalmanApply, htype, hk]
    · have h44 : f.rejected_count = 4 := by omega
      obtain ⟨hstate, hacc⟩ := gatePhase_reset f d rs hinit hrc
        (by rw [hstatus]; simp; omega)
      rw [filterUpdate_initialized f d rs hinit, hstate, hacc,
        if_pos (show 5 ≤ f.rejected_count + 1 by omega)]
      simp [kalmanApply, htype, hx, hp, hlo, hssr]
  · intro g e t hg htg hnone
    rw [filterUpdate_initialized g e t hg] at hnone
    rw [if_pos (by rw [gatePhase_config]; exact htg)] at hnone
    by_cases hki : (gatePhase g e t).1.kalman_initialized
    · rw [kalmanApply] at hnone
      rw [if_neg (by simp [hki])] at hnone
      simp [finishOutput] at hnone
    · by_cases hacc : ((gatePhase g e t).2.1 && (gatePhase g e t).2.2) = true
      · rw [kalmanApply, if_pos (by simp [hki]), hacc] at hnone
        simp [finishOutput] at hnone
      · refine ⟨?_, by simpa using hki⟩
        simp only [Bool.and_eq_true, not_and_or, Bool.not_eq_true] at hacc
        exact hacc

/-- Witness for C4: a fresh Kalman filter rejects a status-4 first
sample and produces no output. -/
theorem kalman_bootstrap_rejected_witness :
    (FilterUpdate
      { config := { FilterGetDefaultConfig with filter_type := .kalman },
        buffer := List.replicate 5 0, status_buffer := List.replicate 5 0,
        head := 0, count := 0, last_output := 0, rejected_count := 0,
        samples_since_reset := 0, kalman_x := 0, kalman_p := 1000,
        kalman_initialized := false, initialized := true } 500 4).2 = none :=
  (kalman_bootstrap_rejected _ 500 4 (by decide) (by decide) (by decide)
    (by decide) (by decide) (by decide) (by decide) (by decide) (by decide)).1.1

/-- Neither Kalman branch writes the rejection counter. -/
lemma rc_kalmanApply (f3 : FilterState) (d : ℕ) (a : Bool) :
    (kalmanApply f3 d a).1.rejected_count = f3.rejected_count := by
  simp only [kalmanApply, finishOutput]
  split_ifs <;> rfl

/-- The buffer-filter branch never writes the rejection counter. -/
lemma rc_bufferApply (f3 : FilterState) (d rs : ℕ) (a : Bool) :
    (bufferApply f3 d rs a).1.rejected_count = f3.rejected_count := by
  simp only [bufferApply, finishOutput]
  split_ifs <;> rfl

/-- A default-config filter switched to the Kalman filter type. -/
def kalmanDefaultConfig : FilterConfig :=
  { FilterGetDefaultConfig with filter_type := .kalman }

/-- An initialized Kalman-mode filter state in tracking mode, used as a
concrete test fixture. -/
def trackingState (x p : ℚ) (lo rc ssr : ℕ) : FilterState :=
  { config := kalmanDefaultConfig
    buffer := List.replicate 5 0
    status_buffer := List.replicate 5 0
    head := 0
    count := 0
    last_output := lo
    rejected_count := rc
    samples_since_reset := ssr
    kalman_x := x
    kalman_p := p
    kalman_initialized := true
    initialized := true }

/-- C2 counterexample: with both gates enabled, a sample that fails
both the status gate and the rate gate increments the consecutive
rejection counter by 2, not by 1 as the claim states, even though no
auto-reset fires (the counter goes from 0 to 2). -/
theorem rejectionCounter_counterexample :
    statusGateRejects (trackingState 1000 2 1000 0 3).config 4 = true ∧
    rateGateRejects (trackingState 1000 2 1000 0 3) 2000 = true ∧
    (trackingState 1000 2 1000 0 3).rejected_count = 0 ∧
    (FilterUpdate (trackingState 1000 2 1000 0 3) 2000 4).1.rejected_count = 2 ∧
    ¬ ((FilterUpdate (trackingState 1000 2 1000 0 3) 2000 4).1.rejected_count
        = (trackingState 1000 2 1000 0 3).rejected_count + 1) := by
  refine ⟨by decide, by decide, by decide, by decide, by decide⟩

/-- C2 amended: with both gates enabled, as long as no auto-reset fires
during the call, a rejected sample increments `consecutive_rejections`
by one per failed gate (so by 2 when both the status gate and the rate
gate fail), and a fully accepted sample resets it to 0. -/
theorem rejectionCounter_bookkeeping (f : FilterState) (d rs : ℕ)
    (hinit : f.initialized = true)
    (hsc : f.config.enable_status_check = true)
    (hrl : f.config.enable_rate_limit = true)
    (hnoreset : f.rejected_count + (statusGateRejects f.config rs).toNat
        + (rateGateRejects f d).toNat < 5) :
    (FilterUpdate f d rs).1.rejected_count =
      if statusGateRejects f.config rs = false ∧ rateGateRejects f d = false
      then 0
      else f.rejected_count + (statusGateRejects f.config rs).toNat
             + (rateGateRejects f d).toNat := by
  by_cases hrej : statusGateRejects f.config rs = true ∨ rateGateRejects f d = true
  · have hgp := gatePhase_rejected_noReset f d rs hrej hnoreset
    rw [if_neg (show ¬ (statusGateRejects f.config rs = false ∧
        rateGateRejects f d = false) by rcases hrej with h | h <;> simp [h])]
    rw [filterUpdate_initialized f d rs hinit, hgp]
    split_ifs with hty
    · rw [rc_kalmanApply]
    · rw [rc_bufferApply]
  · push_neg at hrej
    obtain ⟨hs, hr⟩ := hrej
    have hs' : statusGateRejects f.config rs = false := by simpa using hs
    have hr' : rateGateRejects f d = false := by simpa using hr
    rw [if_pos ⟨hs', hr'⟩, filterUpdate_initialized f d rs hinit,
      gatePhase_accepted f d rs hs' hr']
    split_ifs with hty
    · rw [rc_kalmanApply]
    · rw [rc_bufferApply]

/-- Witness for C2 amended: a single-gate rejection (bad status, rate
in bounds) increments the counter from 1 to 2. -/
theorem rejectionCounter_bookkeeping_witness :
    (FilterUpdate (trackingState 1000 2 1000 1 3) 1005 4).1.rejected_count =
      if statusGateRejects (trackingState 1000 2 1000 1 3).config 4 = false ∧
         rateGateRejects (trackingState 1000 2 1000 1 3) 1005 = false
      then 0
      else (trackingState 1000 2 1000 1 3).rejected_count
             + (statusGateRejects (trackingState 1000 2 1000 1 3).config 4).toNat
             + (rateGateRejects (trackingState 1000 2 1000 1 3) 1005).toNat :=
  rejectionCounter_bookkeeping (trackingState 1000 2 1000 1 3) 1005 4
    (by decide) (by decide) (by decide) (by decide)

/-- C5: an initialized Kalman filter fed a rejected sample (without
the counter reaching the reset threshold) still succeeds, outputs the
unchanged estimate rounded to the nearest integer, leaves `kalman_x`
unchanged, and strictly grows the error covariance by exactly the
configured process noise Q. -/
theorem kalman_coasting (f : FilterState) (d rs : ℕ)
    (hinit : f.initialized = true)
    (htype : f.config.filter_type = .kalman)
    (hk : f.kalman_initialized = true)
    (hrej : statusGateRejects f.config rs = true ∨ rateGateRejects f d = true)
    (hnoreset : f.rejected_count + (statusGateRejects f.config rs).toNat
        + (rateGateRejects f d).toNat < 5)
    (hQ : 0 < f.config.kalman_process_noise) :
    (FilterUpdate f d rs).2 = some (round f.kalman_x).toNat ∧
    (FilterUpdate f d rs).1.kalman_x = f.kalman_x ∧
    (FilterUpdate f d rs).1.kalman_p
      = f.kalman_p + f.config.kalman_process_noise ∧
    f.kalman_p < (FilterUpdate f d rs).1.kalman_p := by
  have hgp := gatePhase_rejected_noReset f d rs hrej hnoreset
  have haccf : ((!statusGateRejects f.config rs) && (!rateGateRejects f d))
      = false := by rcases hrej with h | h <;> simp [h]
  rw [filterUpdate_initialized f d rs hinit, hgp]
  dsimp only
  rw [haccf, if_pos htype]
  simp [kalmanApply, finishOutput, castU16, hk, round_eq]
  exact hQ

/-- Witness for C5: coasting through a bad-status sample at estimate
1000.25 with covariance 2 yields output 1000 and covariance 2.01. -/
theorem kalman_coasting_witness :
    (FilterUpdate (trackingState (4001/4) 2 1000 0 3) 1002 4).2
      = some (round ((4001/4 : ℚ))).toNat ∧
    (FilterUpdate (trackingState (4001/4) 2 1000 0 3) 1002 4).1.kalman_x
      = (4001/4 : ℚ) ∧
    (FilterUpdate (trackingState (4001/4) 2 1000 0 3) 1002 4).1.kalman_p
      = 2 + (trackingState (4001/4) 2 1000 0 3).config.kalman_process_noise ∧
    (2:ℚ) < (FilterUpdate (trackingState (4001/4) 2 1000 0 3) 1002 4).1.kalman_p :=
  kalman_coasting (trackingState (4001/4) 2 1000 0 3) 1002 4
    (by decide) (by decide) (by decide) (Or.inl (by decide)) (by decide)
    (by norm_num [trackingState, kalmanDefaultConfig, FilterGetDefaultConfig])

/-- C6 counterexample: with `max_change_rate_mm = 30000` and
`samples_since_reset < 3`, the tripled limit is stored into a
`uint16_t`, so the effective limit is `90000 % 65536 = 24464`, not
`3 × 30000 = 90000`; a sample 30000 mm away from `last_output` is
within the claimed limit yet rejected by the code's rate gate. -/
theorem rateLimit_grace_counterexample :
    effectiveRateLimit
      { trackingState 0 2 0 0 0 with
          config := { kalmanDefaultConfig with max_change_rate_mm := 30000 } }
      = 24464 ∧
    ¬ (effectiveRateLimit
        { trackingState 0 2 0 0 0 with
            config := { kalmanDefaultConfig with max_change_rate_mm := 30000 } }
        = 3 * 30000) ∧
    (((30000 : ℤ) - (0 : ℤ)).natAbs ≤ 3 * 30000) ∧
    rateGateRejects
      { trackingState 0 2 0 0 0 with
          config := { kalmanDefaultConfig with max_change_rate_mm := 30000 } }
      30000 = true := by
  refine ⟨by decide, by decide, by decide, by decide⟩

/-- C6 amended: for an initialized Kalman filter with the rate limiter
enabled and `samples_since_reset < 3`, the effective limit is
`(3 × max_change_rate_mm) mod 65536` (the tripled value truncated to
`uint16_t`; it equals `3 × max_change_rate_mm` only when
`max_change_rate_mm ≤ 21845`), and the sample is rate-valid iff
`|distance_mm − last_output|` is at most that effective limit. -/
theorem rateLimit_grace_period (f : FilterState) (d : ℕ)
    (hrl : f.config.enable_rate_limit = true)
    (htype : f.config.filter_type = .kalman)
    (hk : f.kalman_initialized = true)
    (hssr : f.samples_since_reset < 3) :
    effectiveRateLimit f = f.config.max_change_rate_mm * 3 % 65536 ∧
    (f.config.max_change_rate_mm ≤ 21845 →
      effectiveRateLimit f = 3 * f.config.max_change_rate_mm) ∧
    (rateGateRejects f d = false ↔
      ((d : ℤ) - (f.last_output : ℤ)).natAbs
        ≤ f.config.max_change_rate_mm * 3 % 65536) := by
  have heff : effectiveRateLimit f = f.config.max_change_rate_mm * 3 % 65536 := by
    unfold effectiveRateLimit
    rw [if_pos hssr]
  refine ⟨heff, ?_, ?_⟩
  · intro hsmall
    rw [heff, Nat.mod_eq_of_lt (by omega), Nat.mul_comm]
  · unfold rateGateRejects hasPreviousOutput
    rw [heff]
    simp [hrl, htype, hk]

/-- Witness for C6 amended: the default 500 mm limit is tripled to
1500 mm right after a reset, and a 1200 mm jump passes the gate. -/
theorem rateLimit_grace_period_witness :
    effectiveRateLimit (trackingState 1000 2 1000 0 1)
      = (trackingState 1000 2 1000 0 1).config.max_change_rate_mm * 3 % 65536 ∧
    ((trackingState 1000 2 1000 0 1).config.max_change_rate_mm ≤ 21845 →
      effectiveRateLimit (trackingState 1000 2 1000 0 1)
        = 3 * (trackingState 1000 2 1000 0 1).config.max_change_rate_mm) ∧
    (rateGateRejects (trackingState 1000 2 1000 0 1) 2200 = false ↔
      ((2200 : ℤ) - ((trackingState 1000 2 1000 0 1).last_output : ℤ)).natAbs
        ≤ (trackingState 1000 2 1000 0 1).config.max_change_rate_mm * 3 % 65536) :=
  rateLimit_grace_period (trackingState 1000 2 1000 0 1) 2200
    (by decide) (by decide) (by decide) (by decide)

/-- The rejection bookkeeping either keeps the covariance or resets it
to the 1000 sentinel. -/
lemma kalman_p_bumpRejected (f : FilterState) :
    (bumpRejected f).kalman_p = f.kalman_p ∨ (bumpRejected f).kalman_p = 1000 := by
  simp only [bumpRejected, FilterReset]
  split_ifs <;> simp

/-- The rejection bookkeeping preserves non-negativity of the
covariance. -/
lemma kalman_p_bumpRejected_nonneg (f : FilterState) (h : 0 ≤ f.kalman_p) :
    0 ≤ (bumpRejected f).kalman_p := by
  rcases kalman_p_bumpRejected f with h' | h' <;> rw [h']
  · exact h
  · norm_num

set_option maxHeartbeats 1600000 in
/-- The gate phase preserves non-negativity of the covariance. -/
lemma kalman_p_gatePhase_nonneg (f : FilterState) (d rs : ℕ)
    (h : 0 ≤ f.kalman_p) : 0 ≤ (gatePhase f d rs).1.kalman_p := by
  simp only [gatePhase]
  split_ifs <;>
    first
    | exact h
    | exact kalman_p_bumpRejected_nonneg f h
    | exact kalman_p_bumpRejected_nonneg _ (kalman_p_bumpRejected_nonneg f h)

/-- The output tail never touches the covariance. -/
lemma kalman_p_finishOutput (f : FilterState) (fl : ℕ) (a : Bool) :
    (finishOutput f fl a).1.kalman_p = f.kalman_p := rfl

/-- The Kalman branch preserves non-negativity of the covariance when
both noise parameters are non-negative. -/
lemma kalman_p_kalmanApply_nonneg (f3 : FilterState) (d : ℕ) (a : Bool)
    (hQ : 0 ≤ f3.config.kalman_process_noise)
    (hR : 0 ≤ f3.config.kalman_measurement_noise)
    (hp : 0 ≤ f3.kalman_p) : 0 ≤ (kalmanApply f3 d a).1.kalman_p := by
  simp only [kalmanApply]
  split_ifs with h1 h2
  · rw [kalman_p_finishOutput]
    exact hR
  · exact hp
  · -- full observation update
    rw [kalman_p_finishOutput]
    have hP : 0 ≤ f3.kalman_p + f3.config.kalman_process_noise := add_nonneg hp hQ
    by_cases hS : f3.kalman_p + f3.config.kalman_process_noise
        + f3.config.kalman_measurement_noise = 0
    · show 0 ≤ (1 - (f3.kalman_p + f3.config.kalman_process_noise)
          / (f3.kalman_p + f3.config.kalman_process_noise
              + f3.config.kalman_measurement_noise))
          * (f3.kalman_p + f3.config.kalman_process_noise)
      rw [hS, div_zero]
      simpa using hP
    · have hSpos : 0 < f3.kalman_p + f3.config.kalman_process_noise
          + f3.config.kalman_measurement_noise :=
        lt_of_le_of_ne (add_nonneg hP hR) (Ne.symm hS)
      show 0 ≤ (1 - (f3.kalman_p + f3.config.kalman_process_noise)
          / (f3.kalman_p + f3.config.kalman_process_noise
              + f3.config.kalman_measurement_noise))
          * (f3.kalman_p + f3.config.kalman_process_noise)
      have hgain : (1 - (f3.kalman_p + f3.config.kalman_process_noise)
            / (f3.kalman_p + f3.config.kalman_process_noise
                + f3.config.kalman_measurement_noise))
          = f3.config.kalman_measurement_noise
            / (f3.kalman_p + f3.config.kalman_process_noise
                + f3.config.kalman_measurement_noise) := by
        field_simp
      rw [hgain]
      exact mul_nonneg (div_nonneg hR hSpos.le) hP
  · -- prediction only
    rw [kalman_p_finishOutput]
    exact add_nonneg hp hQ

/-- The buffer-filter branch never touches the covariance. -/
lemma kalman_p_bufferApply (f3 : FilterState) (d rs : ℕ) (a : Bool) :
    (bufferApply f3 d rs a).1.kalman_p = f3.kalman_p := by
  simp only [bufferApply, finishOutput]
  split_ifs <;> rfl

/-- C9: with non-negative configured noise parameters, the invariant
`error_covariance ≥ 0` is established by `VL53LX_FilterInitWithConfig`
(sentinel 1000), re-established by `VL53LX_FilterReset` on any
initialized filter, and preserved by every `VL53LX_FilterUpdate` call
whatever the sample and gate outcomes. -/
theorem errorCovariance_nonneg :
    (∀ (c : FilterConfig) (f : FilterState),
      FilterInitWithConfig c = some f → 0 ≤ f.kalman_p) ∧
    (∀ f : FilterState, f.initialized = true → 0 ≤ (FilterReset f).kalman_p) ∧
    (∀ (f : FilterState) (d rs : ℕ),
      0 ≤ f.config.kalman_process_noise →
      0 ≤ f.config.kalman_measurement_noise →
      0 ≤ f.kalman_p → 0 ≤ (FilterUpdate f d rs).1.kalman_p) := by
  refine ⟨?_, ?_, ?_⟩
  · intro c f hf
    unfold FilterInitWithConfig at hf
    by_cases h : c.window_size < 3 ∨ 15 < c.window_size
    · rw [if_pos h] at hf
      cases hf
    · rw [if_neg h] at hf
      injection hf with hf'
      rw [← hf']
      norm_num
  · intro f hf
    unfold FilterReset
    rw [if_pos hf]
    norm_num
  · intro f d rs hQ hR hp
    by_cases hi : f.initialized = true
    · rw [filterUpdate_initialized f d rs hi]
      split_ifs with hty
      · exact kalman_p_kalmanApply_nonneg _ d _
          (by rw [gatePhase_config]; exact hQ)
          (by rw [gatePhase_config]; exact hR)
          (kalman_p_gatePhase_nonneg f d rs hp)
      · rw [kalman_p_bufferApply]
        exact kalman_p_gatePhase_nonneg f d rs hp
    · have hi' : f.initialized = false := by simpa using hi
      unfold FilterUpdate
      rw [hi']
      simpa using hp

/-- Witness for C9: the invariant holds across a concrete accepted
update of a Kalman filter with the default non-negative noises. -/
theorem errorCovariance_nonneg_witness :
    0 ≤ (FilterUpdate (trackingState 1000 2 1000 0 3) 1005 0).1.kalman_p :=
  errorCovariance_nonneg.2.2 (trackingState 1000 2 1000 0 3) 1005 0
    (by norm_num [trackingState, kalmanDefaultConfig, FilterGetDefaultConfig])
    (by norm_num [trackingState, kalmanDefaultConfig, FilterGetDefaultConfig])
    (by norm_num [trackingState])

/-- The peak-search fold either returns its accumulator unchanged or an
index drawn from the scanned list. -/
lemma peak_foldl_cases (cb : ℕ → ℕ) :
    ∀ (l : List ℕ) (acc : ℕ × ℕ),
      l.foldl (fun a i => if a.1 < cb i then (cb i, i) else a) acc = acc ∨
      (l.foldl (fun a i => if a.1 < cb i then (cb i, i) else a) acc).2 ∈ l := by
  intro l
  induction l with
  | nil => intro acc; exact Or.inl rfl
  | cons i t ih =>
    intro acc
    simp only [List.foldl_cons]
    by_cases h : acc.1 < cb i
    · rw [if_pos h]
      rcases ih (cb i, i) with h2 | h2
      · right
        rw [h2]
        exact List.mem_cons_self i t
      · right
        exact List.mem_cons_of_mem i h2
    · rw [if_neg h]
      rcases ih acc with h2 | h2
      · exact Or.inl h2
      · right
        exact List.mem_cons_of_mem i h2

/-- A strictly positive peak count locates the peak inside the scanned
window, bins 6..17. -/
lemma peakSearch_pos_bounds (cb : ℕ → ℕ) (h : 0 < (peakSearch cb).1) :
    6 ≤ (peakSearch cb).2 ∧ (peakSearch cb).2 ≤ 17 := by
  have hc := peak_foldl_cases cb (List.range' 6 12) (0, 0)
  rw [show (List.range' 6 12).foldl
      (fun a i => if a.1 < cb i then (cb i, i) else a) (0, 0) = peakSearch cb
    from rfl] at hc
  rcases hc with h2 | h2
  · rw [h2] at h
    simp at h
  · rw [List.mem_range'_1] at h2
    omega


/-- C8 counterexample: on the histogram with bins 5, 6, 7 holding 2, 5,
4 photons (all others zero), the peak is at bin 6 with sub-bin offset
1/4, so `accurate_bin × bin_width = 6.25 × 15 = 93.75`; the claim's
round-to-nearest gives 94, but the code's `(uint16_t)` cast truncates
to 93. -/
theorem histogram_distance_counterexample :
    (peakSearch (corrected_bin
        [0,0,0,0,0,2,5,4,0,0,0,0,0,0,0,0,0,0,0,0,0,0,0,0]
        (ambient_estimate [0,0,0,0,0,2,5,4,0,0,0,0,0,0,0,0,0,0,0,0,0,0,0,0])))
      = (5, 6) ∧
    (get_ranging_data
        [0,0,0,0,0,2,5,4,0,0,0,0,0,0,0,0,0,0,0,0,0,0,0,0]).distance_mm = 93 ∧
    (round (((6 : ℚ) + 1/4) * 15)).toNat = 94 ∧
    (get_ranging_data
        [0,0,0,0,0,2,5,4,0,0,0,0,0,0,0,0,0,0,0,0,0,0,0,0]).distance_mm
      ≠ (round (((6 : ℚ) + 1/4) * 15)).toNat := by
  have hpk : peakSearch (corrected_bin
      [0,0,0,0,0,2,5,4,0,0,0,0,0,0,0,0,0,0,0,0,0,0,0,0]
      (ambient_estimate [0,0,0,0,0,2,5,4,0,0,0,0,0,0,0,0,0,0,0,0,0,0,0,0]))
      = (5, 6) := by decide
  have hround : (round (((6 : ℚ) + 1/4) * 15)).toNat = 94 := by
    have h1 : ((6 : ℚ) + 1/4) * 15 = 375 / 4 := by norm_num
    have h2 : round ((375 : ℚ) / 4) = 94 := by
      rw [round_eq]
      rw [show (375 : ℚ) / 4 + 1 / 2 = 377 / 4 by norm_num]
      rw [Int.floor_eq_iff]
      constructor <;> norm_num
    rw [h1, h2]
    rfl
  have hdist : (get_ranging_data
      [0,0,0,0,0,2,5,4,0,0,0,0,0,0,0,0,0,0,0,0,0,0,0,0]).distance_mm = 93 := by
    simp only [get_ranging_data, hpk]
    norm_num
    rw [show corrected_bin [0,0,0,0,0,2,5,4,0,0,0,0,0,0,0,0,0,0,0,0,0,0,0,0]
          (ambient_estimate [0,0,0,0,0,2,5,4,0,0,0,0,0,0,0,0,0,0,0,0,0,0,0,0]) 5
        = 2 from by decide,
      show corrected_bin [0,0,0,0,0,2,5,4,0,0,0,0,0,0,0,0,0,0,0,0,0,0,0,0]
          (ambient_estimate [0,0,0,0,0,2,5,4,0,0,0,0,0,0,0,0,0,0,0,0,0,0,0,0]) 6
        = 5 from by decide,
      show corrected_bin [0,0,0,0,0,2,5,4,0,0,0,0,0,0,0,0,0,0,0,0,0,0,0,0]
          (ambient_estimate [0,0,0,0,0,2,5,4,0,0,0,0,0,0,0,0,0,0,0,0,0,0,0,0]) 7
        = 4 from by decide]
    have key : ∀ q : ℚ, 93 ≤ q → q < 94 → ⌊q⌋.toNat = 93 := by
      intro q hq1 hq2
      have hfl : ⌊q⌋ = 93 := by
        rw [Int.floor_eq_iff]
        constructor
        · exact_mod_cast hq1
        · push_cast
          linarith
      rw [hfl]
      rfl
    rw [castU16]
    apply key
    · split_ifs with hcond
      · norm_num at hcond
      · push_cast
        norm_num
    · split_ifs with hcond
      · norm_num at hcond
      · push_cast
        norm_num
  refine ⟨hpk, hdist, hround, ?_⟩
  rw [hdist, hround]
  omega

/-- C8 amended: whenever the peak search over the ambient-corrected
bins 6..17 finds a strictly positive maximum at `peak_bin`, the
extractor's `distance_mm` equals `accurate_bin × bin_width` truncated
toward zero (the C `(uint16_t)` cast — not rounded to nearest as the
spec claims), where `accurate_bin = peak_bin +` the parabolic sub-bin
offset (0 when the denominator `a − 2b + c` vanishes) and the bin
width is 15.0 mm for `peak_bin < 12` and 12.5 mm for `peak_bin ≥ 12`. -/
theorem histogram_distance_formula (bins : List ℕ)
    (h : 0 < (peakSearch (corrected_bin bins (ambient_estimate bins))).1) :
    6 ≤ (get_ranging_data bins).peak_bin ∧
    (get_ranging_data bins).peak_bin ≤ 17 ∧
    (get_ranging_data bins).distance_mm =
      castU16
        ((((peakSearch (corrected_bin bins (ambient_estimate bins))).2 : ℚ) +
          (if (corrected_bin bins (ambient_estimate bins)
                  ((peakSearch (corrected_bin bins (ambient_estimate bins))).2 - 1) : ℤ)
                - 2 * (corrected_bin bins (ambient_estimate bins)
                  ((peakSearch (corrected_bin bins (ambient_estimate bins))).2) : ℤ)
                + (corrected_bin bins (ambient_estimate bins)
                  ((peakSearch (corrected_bin bins (ambient_estimate bins))).2 + 1) : ℤ)
              = 0
           then (0 : ℚ)
           else (1 / 2) *
              (((corrected_bin bins (ambient_estimate bins)
                  ((peakSearch (corrected_bin bins (ambient_estimate bins))).2 - 1) : ℤ)
                - (corrected_bin bins (ambient_estimate bins)
                  ((peakSearch (corrected_bin bins (ambient_estimate bins))).2 + 1) : ℤ)
                : ℤ) : ℚ) /
              (((corrected_bin bins (ambient_estimate bins)
                  ((peakSearch (corrected_bin bins (ambient_estimate bins))).2 - 1) : ℤ)
                - 2 * (corrected_bin bins (ambient_estimate bins)
                  ((peakSearch (corrected_bin bins (ambient_estimate bins))).2) : ℤ)
                + (corrected_bin bins (ambient_estimate bins)
                  ((peakSearch (corrected_bin bins (ambient_estimate bins))).2 + 1) : ℤ)
                : ℤ) : ℚ))) *
         (if (peakSearch (corrected_bin bins (ambient_estimate bins))).2 < 12
          then (15 : ℚ) else 25 / 2)) := by
  obtain ⟨h6, h17⟩ := peakSearch_pos_bounds _ h
  refine ⟨h6, h17, ?_⟩
  simp only [get_ranging_data]
  rw [if_pos (show 0 < (peakSearch (corrected_bin bins (ambient_estimate bins))).1
      ∧ 0 < (peakSearch (corrected_bin bins (ambient_estimate bins))).2
      ∧ (peakSearch (corrected_bin bins (ambient_estimate bins))).2 < 23
    from ⟨h, by omega, by omega⟩)]
  simp only [ite_not]

/-- Witness for C8 amended: the histogram peaking at bin 6 satisfies
the peak-location bounds the theorem derives. -/
theorem histogram_distance_formula_witness :
    6 ≤ (get_ranging_data
        [0,0,0,0,0,2,5,4,0,0,0,0,0,0,0,0,0,0,0,0,0,0,0,1]).peak_bin ∧
    (get_ranging_data
        [0,0,0,0,0,2,5,4,0,0,0,0,0,0,0,0,0,0,0,0,0,0,0,1]).peak_bin ≤ 17 :=
  ⟨(histogram_distance_formula
      [0,0,0,0,0,2,5,4,0,0,0,0,0,0,0,0,0,0,0,0,0,0,0,1] (by decide)).1,
   (histogram_distance_formula
      [0,0,0,0,0,2,5,4,0,0,0,0,0,0,0,0,0,0,0,0,0,0,0,1] (by decide)).2.1⟩

end StampflyTof
